import Mathlib

/-!
Shallow embedding of `app.py` (a Flask messaging backend with a JSON-file
store and a delayed Gemini auto-reply) and proofs about its handlers.

Modelling conventions:
  * A Python dict keyed by strings is an association list `List (String × β)`
    with `mapFind` (`d.get(k)` / `d[k]`), `mapInsert` (`d[k] = v`),
    `mapErase` (`del d[k]`) and `mapMem` (`k in d`).
  * `uuid.uuid4()` and `datetime.now().isoformat()` are nondeterministic, so
    every operation that calls them takes the generated string as an explicit
    parameter (`newId`, `ts`).
  * `save_data` writes the whole file and returns a success flag, swallowing
    exceptions; each mutating operation takes a `saveOk : Bool` parameter and
    the persisted state after a failed save is the unchanged input state.
  * The network call of `generate_response` is abstracted by an oracle
    `net : String → NetResult` giving, for the full prompt that was posted,
    either a transport or HTTP-status error (`requests.exceptions.RequestException`)
    or the list of candidate texts of the decoded response body.
-/

/-- A message dict as built at app.py lines 237-243 (keys id, who, text, ts, status). -/
structure Message where
  id : String
  who : String
  text : String
  ts : String
  status : String
deriving DecidableEq

/-- A conversation dict as built at app.py lines 204-208 (keys id, name, messages). -/
structure Conversation where
  id : String
  name : String
  messages : List Message
deriving DecidableEq

/-- The top-level state dict persisted in whatsapp_data.json (app.py lines 28-33). -/
structure AppState where
  conversations : List (String × Conversation)
  currentConvId : String
  simulateBot : Bool
  geminiEnabled : Bool
deriving DecidableEq

/-- Python dict lookup `d.get(k)`: the value at the first matching key, if any. -/
def mapFind {β : Type} : List (String × β) → String → Option β
  | [], _ => none
  | (k, v) :: rest, key => if k = key then some v else mapFind rest key

/-- Python dict assignment `d[k] = v`: replace the value at an existing key, else append. -/
def mapInsert {β : Type} : List (String × β) → String → β → List (String × β)
  | [], key, v => [(key, v)]
  | (k, w) :: rest, key, v =>
      if k = key then (key, v) :: rest else (k, w) :: mapInsert rest key v

/-- Python `del d[k]`: remove the entry (entries) with the given key. -/
def mapErase {β : Type} : List (String × β) → String → List (String × β)
  | [], _ => []
  | (k, w) :: rest, key =>
      if k = key then mapErase rest key else (k, w) :: mapErase rest key

/-- Python membership test `k in d`. -/
def mapMem {β : Type} (m : List (String × β)) (key : String) : Bool :=
  (mapFind m key).isSome

/-- Python negative slice `l[-n:]` for n > 0: the last `n` elements (all of them
when the list is shorter than `n`). -/
def lastN {α : Type} (n : Nat) (l : List α) : List α :=
  l.drop (l.length - n)

/-- A decoded top-level JSON object from the backing file, with each of the four
expected keys optionally present.  Values of present keys are assumed to be of
the expected shape: `load_data` performs no type validation of present values. -/
structure RawData where
  conversations : Option (List (String × Conversation))
  currentConvId : Option String
  simulateBot : Option Bool
  geminiEnabled : Option Bool
deriving DecidableEq

/-- The possible contents of the backing file `whatsapp_data.json` as seen by
`load_data`: absent, present but not decodable as JSON (`json.load` raises
`json.JSONDecodeError`), a decoded top-level JSON object, or a decoded JSON
value that is not an object (for example the file content `[]`). -/
inductive FileContent where
  | absent
  | undecodable
  | jsonObject (d : RawData)
  | jsonNonObject
deriving DecidableEq

/-- The `default_data` dict of `load_data` (app.py lines 28-33). -/
def default_data : AppState :=
  { conversations := []
    currentConvId := "conv-default"
    simulateBot := false
    geminiEnabled := false }

/-- `WhatsAppManager.load_data` (app.py lines 26-47).  Returns `none` when the
function raises: on a decoded non-object JSON value the back-fill loop
`data[key] = value` raises `TypeError`, which the `except (json.JSONDecodeError,
KeyError)` clause does not catch. -/
def load_data : FileContent → Option AppState
  | .absent => some default_data
  | .undecodable => some default_data
  | .jsonObject d =>
      some { conversations := d.conversations.getD default_data.conversations
             currentConvId := d.currentConvId.getD default_data.currentConvId
             simulateBot := d.simulateBot.getD default_data.simulateBot
             geminiEnabled := d.geminiEnabled.getD default_data.geminiEnabled }
  | .jsonNonObject => none

/-- The seeded welcome message of the default conversation (app.py lines 69-75). -/
def welcome_message (uuid ts : String) : Message :=
  { id := uuid
    who := "their"
    text := "Olá! Sou o Gemini AI. Como posso ajudá-lo hoje?"
    ts := ts
    status := "delivered" }

/-- `WhatsAppManager.init_default_data` (app.py lines 59-85), applied to the
loaded state: inserts the default conversation when missing.  The `data.get`
re-assignments of lines 80-82 are identities here because `load_data` already
back-fills every key (the `True` default of line 82 is therefore never used).
The function saves and returns the data, ignoring the save result. -/
def init_default_data (loaded : AppState) (uuid ts : String) : AppState :=
  if mapMem loaded.conversations "conv-default" then loaded
  else
    { loaded with
        conversations := mapInsert loaded.conversations "conv-default"
          { id := "conv-default"
            name := "Conversa com Gemini AI"
            messages := [welcome_message uuid ts] } }

/-- The JSON body of POST /api/conversations; `name` is optional in the dict. -/
structure CreatePayload where
  name : Option String
deriving DecidableEq

/-- `create_conversation` (app.py lines 193-217): returns the HTTP status, the
created conversation (on 201), and the persisted state.  A `none` payload
models a missing/null/empty (falsy) request body; `new_conv.get("name")` is
falsy when the key is absent or the name is the empty string. -/
def create_conversation (s : AppState) (payload : Option CreatePayload)
    (uuid : String) (saveOk : Bool) : Nat × Option Conversation × AppState :=
  match payload with
  | none => (400, none, s)
  | some p =>
    match p.name with
    | none => (400, none, s)
    | some name =>
      if name = "" then (400, none, s)
      else
        let convId := "conv-" ++ uuid
        let conversation : Conversation := { id := convId, name := name, messages := [] }
        let newData := { s with conversations := mapInsert s.conversations convId conversation }
        if saveOk then (201, some conversation, newData) else (500, none, s)

/-- The JSON body of POST /api/conversations/{id}/messages, with each key
optionally present. -/
structure MsgPayload where
  who : Option String
  text : Option String
  status : Option String
deriving DecidableEq

/-- A pending `threading.Timer(2.0, generate_gemini_reply, [conversation_id,
message_data["text"], context_messages])` (app.py lines 258-260): the arguments
captured at scheduling time. -/
structure ScheduledReply where
  convId : String
  prompt : String
  ctx : List Message
deriving DecidableEq

/-- The observable outcome of one `add_message` call. -/
structure AddResult where
  status : Nat
  message : Option Message
  newData : AppState
  scheduled : Option ScheduledReply
deriving DecidableEq

/-- `add_message` (app.py lines 219-267): 404 when the conversation is missing,
400 when the body is falsy or `who`/`text` is absent; otherwise the message is
appended and saved, and when the sender is "mine" and geminiEnabled is set, a
timer with the just-sent text and the last 5 messages (the new one included)
is scheduled.  On save failure the handler returns 500 and the file keeps the
input state. -/
def add_message (s : AppState) (convId : String) (payload : Option MsgPayload)
    (newId ts : String) (saveOk : Bool) : AddResult :=
  match mapFind s.conversations convId with
  | none => ⟨404, none, s, none⟩
  | some conv =>
    match payload with
    | none => ⟨400, none, s, none⟩
    | some p =>
      match p.who with
      | none => ⟨400, none, s, none⟩
      | some who =>
        match p.text with
        | none => ⟨400, none, s, none⟩
        | some text =>
          let message : Message :=
            { id := newId, who := who, text := text, ts := ts, status := p.status.getD "sent" }
          let newConv := { conv with messages := conv.messages ++ [message] }
          let newData := { s with conversations := mapInsert s.conversations convId newConv }
          if saveOk then
            ⟨201, some message, newData,
              if who = "mine" ∧ newData.geminiEnabled then
                some ⟨convId, text, lastN 5 newConv.messages⟩
              else none⟩
          else ⟨500, none, s, none⟩

/-- `delete_conversation` (app.py lines 282-305): the existence check (404)
precedes the default-conversation guard (400); on the success path the entry is
removed and, when it was the active conversation, `currentConvId` is reset. -/
def delete_conversation (s : AppState) (convId : String) (saveOk : Bool) :
    Nat × AppState :=
  if mapMem s.conversations convId = false then (404, s)
  else if convId = "conv-default" then (400, s)
  else
    let s1 := { s with conversations := mapErase s.conversations convId }
    let s2 := if s1.currentConvId = convId then { s1 with currentConvId := "conv-default" } else s1
    if saveOk then (200, s2) else (500, s)

/-- `clear_messages` (app.py lines 307-324): empties the message list of an
existing conversation. -/
def clear_messages (s : AppState) (convId : String) (saveOk : Bool) :
    Nat × AppState :=
  match mapFind s.conversations convId with
  | none => (404, s)
  | some conv =>
    let newData := { s with conversations := mapInsert s.conversations convId { conv with messages := [] } }
    if saveOk then (200, newData) else (500, s)

/-- The state computed by `toggle_bot` (app.py lines 335-348) before saving. -/
def toggle_bot (s : AppState) : AppState :=
  { s with simulateBot := !s.simulateBot }

/-- The state computed by `toggle_gemini` (app.py lines 350-367) before saving. -/
def toggle_gemini (s : AppState) : AppState :=
  { s with geminiEnabled := !s.geminiEnabled }

/-- Outcome of the `requests.post` call of `generate_response` on a given full
prompt: a transport or HTTP-status failure (`RequestException`, also raised by
`raise_for_status`), or a decoded body carrying the candidate texts. -/
inductive NetResult where
  | httpError (e : String)
  | ok (candidates : List String)

/-- The dict returned by `GeminiAIManager.generate_response`: either
`{"response": ..., "status": "success"}` or `{"error": ...}`. -/
inductive GeminiResult where
  | success (response : String)
  | failure (error : String)
deriving DecidableEq

/-- Python falsiness of `self.api_key` (app.py line 94): the key is missing when
`os.getenv` returned `None` or the environment variable is the empty string. -/
def api_key_missing : Option String → Bool
  | none => true
  | some k => k = ""

/-- The `context_parts` list of `generate_response` (app.py lines 99-103): the
last 6 context messages, each rendered as a role-prefixed line, with role
"user" for messages whose `who` is "mine" and "model" otherwise. -/
def context_parts (ctx : List Message) : List String :=
  (lastN 6 ctx).map (fun m => (if m.who = "mine" then "user" else "model") ++ ": " ++ m.text)

/-- The `full_prompt` expression of `generate_response` (app.py line 105):
the joined context lines followed by a final user line, or the raw prompt when
`context_parts` is empty (in Python an empty list is falsy). -/
def full_prompt (prompt : String) (ctx : List Message) : String :=
  if context_parts ctx = [] then prompt
  else String.intercalate "\n" (context_parts ctx ++ ["user: " ++ prompt])

/-- One `generate_response` call: the full prompt that was posted to the API
(`none` when no request was made) and the returned dict. -/
structure GenCall where
  sent : Option String
  result : GeminiResult

/-- `GeminiAIManager.generate_response` (app.py lines 92-142): configuration
error when the key is unset, otherwise one POST of the full prompt; a transport
error maps to a connection-error dict, an empty candidate list to the
empty-response error, and the first candidate text to a success dict. -/
def generate_response (apiKey : Option String) (prompt : String)
    (ctx : List Message) (net : String → NetResult) : GenCall :=
  if api_key_missing apiKey then ⟨none, .failure "API key não configurada"⟩
  else
    let fp := full_prompt prompt ctx
    match net fp with
    | .httpError e => ⟨some fp, .failure ("Erro de conexão: " ++ e)⟩
    | .ok [] => ⟨some fp, .failure "Nenhuma resposta do Gemini"⟩
    | .ok (t :: _) => ⟨some fp, .success t⟩

/-- `generate_gemini_reply` (app.py lines 148-169), fired by the timer: `s` is
the state freshly reloaded by `whatsapp_mgr.load_data()` at firing time and
`sched` holds the arguments captured at scheduling time.  On generator success
and the conversation still existing, the reply is appended and saved (the save
result is ignored; on failure the file keeps `s`); otherwise nothing happens. -/
def generate_gemini_reply (s : AppState) (sched : ScheduledReply)
    (apiKey : Option String) (net : String → NetResult)
    (newId ts : String) (saveOk : Bool) : AppState :=
  match (generate_response apiKey sched.prompt sched.ctx net).result with
  | .success text =>
    match mapFind s.conversations sched.convId with
    | some conv =>
      let reply : Message :=
        { id := newId, who := "their", text := text, ts := ts, status := "delivered" }
      let newConv := { conv with messages := conv.messages ++ [reply] }
      let newData := { s with conversations := mapInsert s.conversations sched.convId newConv }
      if saveOk then newData else s
    | none => s
  | .failure _ => s

/-- The whole service state: the persisted file content (as a typed state) and
the pending timers scheduled by `add_message` that have not fired yet. -/
structure SysState where
  data : AppState
  pending : List ScheduledReply

/-- One state-affecting operation of the service.  Read-only endpoints
(GET conversations/messages/state/status) never write and are omitted.  Each
constructor carries the nondeterministic inputs of the handler: request
payload, generated uuid and timestamp, and the save outcome; `fire` is the
expiry of the pending timer at a given index, carrying the API-key and network
environment seen by the background call. -/
inductive ServerOp where
  | create (payload : Option CreatePayload) (uuid : String) (saveOk : Bool)
  | addMsg (convId : String) (payload : Option MsgPayload) (newId ts : String) (saveOk : Bool)
  | delete (convId : String) (saveOk : Bool)
  | clear (convId : String) (saveOk : Bool)
  | toggleBot (saveOk : Bool)
  | toggleGemini (saveOk : Bool)
  | fire (idx : Nat) (apiKey : Option String) (net : String → NetResult)
      (newId ts : String) (saveOk : Bool)

/-- The persisted-state transition of one operation.  Every handler re-reads
the file, so the state it mutates is the previously persisted one; a failed
save leaves the file unchanged (the handler answers 500).  A toggle whose save
fails persists nothing. -/
def applyOp (st : SysState) (op : ServerOp) : SysState :=
  match op with
  | .create payload uuid saveOk =>
      ⟨(create_conversation st.data payload uuid saveOk).2.2, st.pending⟩
  | .addMsg convId payload newId ts saveOk =>
      let r := add_message st.data convId payload newId ts saveOk
      ⟨r.newData, st.pending ++ r.scheduled.toList⟩
  | .delete convId saveOk => ⟨(delete_conversation st.data convId saveOk).2, st.pending⟩
  | .clear convId saveOk => ⟨(clear_messages st.data convId saveOk).2, st.pending⟩
  | .toggleBot saveOk => ⟨if saveOk then toggle_bot st.data else st.data, st.pending⟩
  | .toggleGemini saveOk => ⟨if saveOk then toggle_gemini st.data else st.data, st.pending⟩
  | .fire idx apiKey net newId ts saveOk =>
      match st.pending[idx]? with
      | none => st
      | some sched =>
          ⟨generate_gemini_reply st.data sched apiKey net newId ts saveOk,
           st.pending.eraseIdx idx⟩

/-- The state reached from `st` by running the operations in order. -/
def reach (st : SysState) (ops : List ServerOp) : SysState :=
  ops.foldl applyOp st

/-- The system state right after start-up (app.py line 419): the persisted
result of `init_default_data` on whatever `load_data` produced, with no timer
pending.  (Start-up assumes the initial save succeeds; a failed save would
leave the old file, which the next request would reload.) -/
def initSys (loaded : AppState) (uuid ts : String) : SysState :=
  ⟨init_default_data loaded uuid ts, []⟩


/-- A concrete stored message, used by the witness statements. -/
def msgW : Message :=
  { id := "m-0", who := "their", text := "hello", ts := "2026-01-01T00:00:00", status := "delivered" }

/-- A concrete default conversation holding `msgW`. -/
def convDefaultW : Conversation :=
  { id := "conv-default", name := "Conversa com Gemini AI", messages := [msgW] }

/-- A concrete second conversation with no messages. -/
def convXW : Conversation :=
  { id := "conv-x", name := "Trabalho", messages := [] }

/-- A concrete state with two conversations, "conv-x" active, gemini enabled. -/
def stateW : AppState :=
  { conversations := [("conv-default", convDefaultW), ("conv-x", convXW)]
    currentConvId := "conv-x"
    simulateBot := false
    geminiEnabled := true }

/-- The same state with gemini disabled. -/
def stateOffW : AppState :=
  { stateW with geminiEnabled := false }

/-- A concrete message payload from the human side. -/
def payloadW : MsgPayload :=
  { who := some "mine", text := some "hi", status := none }

/-- A network oracle that always answers with one candidate text. -/
def netOkW : String → NetResult := fun _ => .ok ["resposta"]

/-- A network oracle that always fails with a transport error. -/
def netErrW : String → NetResult := fun _ => .httpError "timeout"

/-- A concrete scheduled reply targeting the default conversation. -/
def schedW : ScheduledReply :=
  { convId := "conv-default", prompt := "hi", ctx := [msgW] }

/-- A concrete scheduled reply targeting a conversation that does not exist. -/
def schedGoneW : ScheduledReply :=
  { convId := "conv-gone", prompt := "hi", ctx := [] }

/-- A concrete decoded backing-file object with every top-level key present. -/
def rawFullW : RawData :=
  { conversations := some [("conv-x", convXW)]
    currentConvId := some "conv-x"
    simulateBot := some true
    geminiEnabled := some true }

section MapLemmas

theorem mapFind_mapInsert {β : Type} (m : List (String × β)) (k key : String) (v : β) :
    mapFind (mapInsert m k v) key = if k = key then some v else mapFind m key := by
  induction m with
  | nil => simp [mapFind, mapInsert]
  | cons hd tl ih =>
    obtain ⟨k1, v1⟩ := hd
    by_cases h1 : k1 = k
    · subst h1
      by_cases h2 : k1 = key <;> simp [mapFind, mapInsert, h2]
    · by_cases h2 : k1 = key
      · subst h2
        have hk : ¬ k = k1 := fun h => h1 h.symm
        simp [mapFind, mapInsert, h1, hk]
      · simp [mapFind, mapInsert, h1, h2, ih]

theorem mapFind_mapErase_self {β : Type} (m : List (String × β)) (k : String) :
    mapFind (mapErase m k) k = none := by
  induction m with
  | nil => simp [mapFind, mapErase]
  | cons hd tl ih =>
    obtain ⟨k1, v1⟩ := hd
    by_cases h1 : k1 = k <;> simp [mapFind, mapErase, h1, ih]

theorem mapFind_mapErase_ne {β : Type} (m : List (String × β)) (k key : String)
    (h : k ≠ key) : mapFind (mapErase m k) key = mapFind m key := by
  induction m with
  | nil => simp [mapErase]
  | cons hd tl ih =>
    obtain ⟨k1, v1⟩ := hd
    by_cases h1 : k1 = k
    · subst h1
      have : ¬ k1 = key := fun hc => h hc
      simp [mapFind, mapErase, this, ih]
    · by_cases h2 : k1 = key
      · subst h2
        have hkey : ¬ k1 = k := fun hc => h hc.symm
        simp [mapFind, mapErase, hkey]
      · simp [mapFind, mapErase, h1, h2, ih]

theorem mapMem_mapInsert {β : Type} (m : List (String × β)) (k key : String) (v : β)
    (h : mapMem m key = true) : mapMem (mapInsert m k v) key = true := by
  unfold mapMem at h ⊢
  rw [mapFind_mapInsert]
  by_cases hk : k = key <;> simp [hk, h]

theorem mapMem_mapErase_ne {β : Type} (m : List (String × β)) (k key : String)
    (hne : k ≠ key) (h : mapMem m key = true) : mapMem (mapErase m k) key = true := by
  unfold mapMem at h ⊢
  rw [mapFind_mapErase_ne m k key hne]
  exact h

theorem lastN_ne_nil {α : Type} (n : Nat) (l : List α) (hn : 0 < n) (hl : l ≠ []) :
    lastN n l ≠ [] := by
  unfold lastN
  intro hdrop
  have hle := List.drop_eq_nil_iff.mp hdrop
  have hlen : 0 < l.length := List.length_pos.mpr hl
  omega

end MapLemmas

/-- C7: toggling simulateBot (POST /api/bot) or geminiEnabled
(POST /api/gemini/toggle) once yields the negation of the prior value of the
flag, and toggling twice restores the original value. -/
theorem C7_toggle_flags (s : AppState) :
    (toggle_bot s).simulateBot = !s.simulateBot ∧
    (toggle_bot (toggle_bot s)).simulateBot = s.simulateBot ∧
    (toggle_gemini s).geminiEnabled = !s.geminiEnabled ∧
    (toggle_gemini (toggle_gemini s)).geminiEnabled = s.geminiEnabled := by
  simp [toggle_bot, toggle_gemini]

/-- C3: creating a conversation with an absent body or a missing or empty name
returns 400 and leaves the persisted state untouched; for a body with a
non-empty name (and a successful save) it returns 201 with a conversation
whose id is "conv-" followed by the generated uuid and whose message list is
empty. -/
theorem C3_create_conversation (s : AppState) (payload : Option CreatePayload)
    (uuid n : String) (saveOk : Bool) :
    (payload = none → create_conversation s payload uuid saveOk = (400, none, s)) ∧
    (payload = some { name := none } →
      create_conversation s payload uuid saveOk = (400, none, s)) ∧
    (payload = some { name := some "" } →
      create_conversation s payload uuid saveOk = (400, none, s)) ∧
    (payload = some { name := some n } → n ≠ "" →
      create_conversation s payload uuid true =
        (201, some { id := "conv-" ++ uuid, name := n, messages := [] },
          { s with conversations := (mapInsert s.conversations ("conv-" ++ uuid)
              { id := "conv-" ++ uuid, name := n, messages := [] }) }) ∧
      (∃ rest, ("conv-" ++ uuid : String) = "conv-" ++ rest)) := by
  refine ⟨?_, ?_, ?_, ?_⟩
  · rintro rfl; rfl
  · rintro rfl; rfl
  · rintro rfl; rfl
  · rintro rfl hn
    exact ⟨by simp [create_conversation, hn], uuid, rfl⟩

/-- C3 witness: the 400 and 201 branches at concrete inputs. -/
theorem C3_create_conversation_witness :
    create_conversation stateW none "u1" true = (400, none, stateW) ∧
    (create_conversation stateW (some { name := some "Test" }) "u1" true =
      (201, some { id := "conv-" ++ "u1", name := "Test", messages := [] },
        { stateW with conversations := (mapInsert stateW.conversations ("conv-" ++ "u1")
            { id := "conv-" ++ "u1", name := "Test", messages := [] }) }) ∧
      (∃ rest, ("conv-" ++ "u1" : String) = "conv-" ++ rest)) :=
  ⟨(C3_create_conversation stateW none "u1" "Test" true).1 rfl,
   (C3_create_conversation stateW (some { name := some "Test" }) "u1" "Test" true).2.2.2
     rfl (by decide)⟩

/-- C9: deleting an existing conversation other than "conv-default" (with a
successful save) answers 200, removes exactly that entry, leaves every other
conversation and both feature flags unchanged, and the resulting active id is
"conv-default" exactly when the deleted conversation was the active one,
otherwise the active id is unchanged. -/
theorem C9_delete_frame (s : AppState) (convId : String) (conv : Conversation)
    (hne : convId ≠ "conv-default")
    (hmem : mapFind s.conversations convId = some conv) :
    (delete_conversation s convId true).1 = 200 ∧
    mapFind (delete_conversation s convId true).2.conversations convId = none ∧
    (∀ k, k ≠ convId →
      mapFind (delete_conversation s convId true).2.conversations k =
        mapFind s.conversations k) ∧
    (delete_conversation s convId true).2.simulateBot = s.simulateBot ∧
    (delete_conversation s convId true).2.geminiEnabled = s.geminiEnabled ∧
    (delete_conversation s convId true).2.currentConvId =
      (if s.currentConvId = convId then "conv-default" else s.currentConvId) := by
  have hmemb : mapMem s.conversations convId = true := by simp [mapMem, hmem]
  by_cases hcur : s.currentConvId = convId <;>
    simp [delete_conversation, hmemb, hne, hcur, mapFind_mapErase_self] <;>
    exact fun k hk => mapFind_mapErase_ne s.conversations convId k (fun h => hk h.symm)

/-- C9 witness: deleting the active conversation "conv-x" from the concrete
state removes it, keeps "conv-default", and resets the active id. -/
theorem C9_delete_frame_witness :
    (delete_conversation stateW "conv-x" true).1 = 200 ∧
    mapFind (delete_conversation stateW "conv-x" true).2.conversations "conv-x" = none ∧
    mapFind (delete_conversation stateW "conv-x" true).2.conversations "conv-default" =
      mapFind stateW.conversations "conv-default" ∧
    (delete_conversation stateW "conv-x" true).2.simulateBot = stateW.simulateBot ∧
    (delete_conversation stateW "conv-x" true).2.geminiEnabled = stateW.geminiEnabled ∧
    (delete_conversation stateW "conv-x" true).2.currentConvId =
      (if stateW.currentConvId = "conv-x" then "conv-default" else stateW.currentConvId) := by
  have h := C9_delete_frame stateW "conv-x" convXW (by decide) (by decide)
  exact ⟨h.1, h.2.1, h.2.2.1 "conv-default" (by decide), h.2.2.2.1, h.2.2.2.2.1, h.2.2.2.2.2⟩

/-- C10: in the delete handler the existence check precedes the
default-conversation guard: deleting "conv-default" answers 400 when the
loaded mapping holds it and 404 when it does not, each time leaving the state
unchanged; in particular the default state produced by load_data for an absent
backing file lacks "conv-default", so there the same request answers 404. -/
theorem C10_delete_guard_order (s : AppState) (conv : Conversation) (saveOk : Bool) :
    (mapFind s.conversations "conv-default" = some conv →
      delete_conversation s "conv-default" saveOk = (400, s)) ∧
    (mapFind s.conversations "conv-default" = none →
      delete_conversation s "conv-default" saveOk = (404, s)) ∧
    load_data FileContent.absent = some default_data ∧
    delete_conversation default_data "conv-default" saveOk = (404, default_data) := by
  refine ⟨?_, ?_, rfl, ?_⟩
  · intro h; simp [delete_conversation, mapMem, h]
  · intro h; simp [delete_conversation, mapMem, h]
  · simp [delete_conversation, mapMem, mapFind, default_data]

/-- C10 witness: the 400 case on the concrete populated state and the 404 case
on the default state of an absent file. -/
theorem C10_delete_guard_order_witness :
    delete_conversation stateW "conv-default" true = (400, stateW) ∧
    delete_conversation default_data "conv-default" true = (404, default_data) :=
  ⟨(C10_delete_guard_order stateW convDefaultW true).1 (by decide),
   (C10_delete_guard_order default_data convDefaultW true).2.2.2⟩

/-- C4 counterexample: on a backing file whose content is valid JSON but not an
object (for example the two-byte file content "[]"), json.load succeeds, the
back-fill assignment raises TypeError, and the except clause of load_data does
not catch it, so load_data raises instead of returning any state: load is not
total over backing-file contents. -/
theorem C4_load_not_total : load_data FileContent.jsonNonObject = none := rfl

/-- C4 (amended): load_data returns the default state when the file is absent
or its content is not decodable as JSON; when the content decodes to a
top-level JSON object (with well-shaped values), every missing top-level key
(conversations, currentConvId, simulateBot, geminiEnabled) is back-filled with
its default and every present key keeps its value; but when the content
decodes to a non-object JSON value, load_data raises an uncaught TypeError, so
it is not total. -/
theorem C4_load_defaults (d : RawData) (s : AppState)
    (h : load_data (FileContent.jsonObject d) = some s) :
    load_data FileContent.absent = some default_data ∧
    load_data FileContent.undecodable = some default_data ∧
    (d.conversations = none → s.conversations = []) ∧
    (∀ v, d.conversations = some v → s.conversations = v) ∧
    (d.currentConvId = none → s.currentConvId = "conv-default") ∧
    (∀ v, d.currentConvId = some v → s.currentConvId = v) ∧
    (d.simulateBot = none → s.simulateBot = false) ∧
    (∀ v, d.simulateBot = some v → s.simulateBot = v) ∧
    (d.geminiEnabled = none → s.geminiEnabled = false) ∧
    (∀ v, d.geminiEnabled = some v → s.geminiEnabled = v) := by
  simp only [load_data, Option.some.injEq] at h
  subst h
  refine ⟨rfl, rfl, ?_, ?_, ?_, ?_, ?_, ?_, ?_, ?_⟩ <;>
    first
      | (intro h1; simp [h1, default_data])
      | (intro v h1; simp [h1])

/-- C4 witness: a decoded object missing every key loads as the default state,
and one with every key present keeps its values. -/
theorem C4_load_defaults_witness :
    load_data (FileContent.jsonObject ⟨none, none, none, none⟩) = some default_data ∧
    default_data.conversations = [] ∧
    (∀ s, load_data (FileContent.jsonObject rawFullW) = some s → s.currentConvId = "conv-x") :=
  ⟨rfl,
   (C4_load_defaults ⟨none, none, none, none⟩ default_data rfl).2.2.1 rfl,
   fun s hs => (C4_load_defaults rawFullW s hs).2.2.2.2.2.1 "conv-x" rfl⟩

/-- C2: posting a message to an existing conversation with both who and text in
the payload (and a successful save) answers 201 and appends exactly one
message: the target list is extended by the new message only, so its length
grows by one and the new message is the last element; the new message carries
the generated id and timestamp and the payload status, defaulting to "sent";
every other conversation, the active id and both flags are unchanged; and when
the generated id differs from all ids already in the conversation, the id list
stays duplicate-free. -/
theorem C2_add_message (s : AppState) (convId : String) (p : MsgPayload)
    (newId ts who text : String) (conv : Conversation)
    (hc : mapFind s.conversations convId = some conv)
    (hw : p.who = some who) (ht : p.text = some text) :
    (add_message s convId (some p) newId ts true).status = 201 ∧
    (add_message s convId (some p) newId ts true).message =
      some { id := newId, who := who, text := text, ts := ts, status := p.status.getD "sent" } ∧
    mapFind (add_message s convId (some p) newId ts true).newData.conversations convId =
      some { conv with messages := conv.messages ++
        [{ id := newId, who := who, text := text, ts := ts, status := p.status.getD "sent" }] } ∧
    (conv.messages ++
        [{ id := newId, who := who, text := text, ts := ts,
           status := p.status.getD "sent" : Message }]).length = conv.messages.length + 1 ∧
    (conv.messages ++
        [{ id := newId, who := who, text := text, ts := ts,
           status := p.status.getD "sent" : Message }]).getLast? =
      some { id := newId, who := who, text := text, ts := ts, status := p.status.getD "sent" } ∧
    (∀ k, k ≠ convId →
      mapFind (add_message s convId (some p) newId ts true).newData.conversations k =
        mapFind s.conversations k) ∧
    (add_message s convId (some p) newId ts true).newData.currentConvId = s.currentConvId ∧
    (add_message s convId (some p) newId ts true).newData.simulateBot = s.simulateBot ∧
    (add_message s convId (some p) newId ts true).newData.geminiEnabled = s.geminiEnabled ∧
    ((conv.messages.map Message.id).Nodup → newId ∉ conv.messages.map Message.id →
      ((conv.messages ++
        [{ id := newId, who := who, text := text, ts := ts,
           status := p.status.getD "sent" : Message }]).map Message.id).Nodup) := by
  refine ⟨?_, ?_, ?_, ?_, ?_, ?_, ?_, ?_, ?_, ?_⟩
  · simp [add_message, hc, hw, ht]
  · simp [add_message, hc, hw, ht]
  · simp [add_message, hc, hw, ht, mapFind_mapInsert]
  · simp
  · simp
  · intro k hk
    have hne : ¬ (convId = k) := fun h => hk h.symm
    simp [add_message, hc, hw, ht, mapFind_mapInsert, hne]
  · simp [add_message, hc, hw, ht]
  · simp [add_message, hc, hw, ht]
  · simp [add_message, hc, hw, ht]
  · intro h1 h2
    simp [List.nodup_append, h1, h2]

/-- C2 witness: posting a "mine" message with no status to the concrete state
at the default conversation. -/
theorem C2_add_message_witness :
    (add_message stateW "conv-default" (some payloadW) "m-1" "t-1" true).status = 201 ∧
    (add_message stateW "conv-default" (some payloadW) "m-1" "t-1" true).message =
      some { id := "m-1", who := "mine", text := "hi", ts := "t-1", status := "sent" } ∧
    mapFind (add_message stateW "conv-default" (some payloadW) "m-1" "t-1" true).newData.conversations
        "conv-x" = mapFind stateW.conversations "conv-x" ∧
    (([msgW] : List Message).map Message.id).Nodup := by
  have h := C2_add_message stateW "conv-default" payloadW "m-1" "t-1" "mine" "hi" convDefaultW
    (by decide) rfl rfl
  exact ⟨h.1, h.2.1, h.2.2.2.2.2.1 "conv-x" (by decide), by decide⟩

/-- C5: generate_response answers the configuration-error result when no API
key is configured (the environment variable unset or empty), whatever the
network does; with a key configured it posts exactly the full prompt, which is
the raw prompt when the context is empty and otherwise renders the last at
most 6 context messages as lines "<role>: <text>" with role "user" for
messages whose who is "mine" and "model" otherwise, followed by a final
"user: <prompt>" line. -/
theorem C5_generate_response (apiKey : Option String) (k prompt : String)
    (ctx : List Message) (net : String → NetResult) :
    (generate_response none prompt ctx net).result = .failure "API key não configurada" ∧
    (generate_response (some "") prompt ctx net).result = .failure "API key não configurada" ∧
    (apiKey = some k → k ≠ "" →
      (generate_response apiKey prompt ctx net).sent = some (full_prompt prompt ctx)) ∧
    full_prompt prompt [] = prompt ∧
    (ctx ≠ [] →
      full_prompt prompt ctx =
        String.intercalate "\n"
          ((lastN 6 ctx).map
            (fun m => (if m.who = "mine" then "user" else "model") ++ ": " ++ m.text) ++
           ["user: " ++ prompt])) := by
  refine ⟨rfl, ?_, ?_, rfl, ?_⟩
  · simp [generate_response, api_key_missing]
  · rintro rfl hk
    have hmiss : api_key_missing (some k) = false := by simp [api_key_missing, hk]
    cases hn : net (full_prompt prompt ctx) with
    | httpError e => simp [generate_response, hmiss, hn]
    | ok cands => cases cands <;> simp [generate_response, hmiss, hn]
  · intro hctx
    have hne : context_parts ctx ≠ [] := by
      unfold context_parts
      intro hmap
      exact lastN_ne_nil 6 ctx (by norm_num) hctx (List.map_eq_nil_iff.mp hmap)
    unfold full_prompt
    rw [if_neg hne]
    rfl

/-- C5 witness: a one-message context from the other side renders as a model
line followed by the user line, and the posted text is exactly that. -/
theorem C5_generate_response_witness :
    (generate_response (some "k") "oi" [msgW] netOkW).sent = some (full_prompt "oi" [msgW]) ∧
    full_prompt "oi" [msgW] =
      String.intercalate "\n"
        ((lastN 6 [msgW]).map
          (fun m => (if m.who = "mine" then "user" else "model") ++ ": " ++ m.text) ++
         ["user: " ++ "oi"]) :=
  ⟨(C5_generate_response (some "k") "k" "oi" [msgW] netOkW).2.2.1 rfl (by decide),
   (C5_generate_response (some "k") "k" "oi" [msgW] netOkW).2.2.2.2 (by decide)⟩

/-- C6: the timer set by add_message captures the just-sent text as prompt and
the last 5 messages of the target conversation (the new message included) as
context; when it fires, the background call runs the generator on exactly that
snapshot, and on generator success with the conversation still present in the
reloaded state (and a successful save) it appends exactly one message with who
"their", status "delivered" and the fresh id and timestamp, leaving every
other conversation untouched; on generator failure or a vanished conversation
it returns the reloaded state unchanged. -/
theorem C6_delayed_reply (s1 s2 : AppState) (convId : String) (p : MsgPayload)
    (newId ts text rid rts rtext : String) (conv1 conv2 : Conversation)
    (sched : ScheduledReply) (apiKey : Option String) (net : String → NetResult) :
    (mapFind s1.conversations convId = some conv1 → p.who = some "mine" →
      p.text = some text → s1.geminiEnabled = true →
      (add_message s1 convId (some p) newId ts true).scheduled =
        some ⟨convId, text, lastN 5 (conv1.messages ++
          [{ id := newId, who := "mine", text := text, ts := ts,
             status := p.status.getD "sent" }])⟩) ∧
    ((generate_response apiKey sched.prompt sched.ctx net).result = .success rtext →
      mapFind s2.conversations sched.convId = some conv2 →
      generate_gemini_reply s2 sched apiKey net rid rts true =
        { s2 with conversations := (mapInsert s2.conversations sched.convId
            { conv2 with messages := conv2.messages ++
              [{ id := rid, who := "their", text := rtext, ts := rts,
                 status := "delivered" }] }) } ∧
      mapFind (generate_gemini_reply s2 sched apiKey net rid rts true).conversations
          sched.convId =
        some { conv2 with messages := conv2.messages ++
          [{ id := rid, who := "their", text := rtext, ts := rts,
             status := "delivered" }] } ∧
      (∀ k, k ≠ sched.convId →
        mapFind (generate_gemini_reply s2 sched apiKey net rid rts true).conversations k =
          mapFind s2.conversations k)) ∧
    (∀ e, (generate_response apiKey sched.prompt sched.ctx net).result = .failure e →
      ∀ saveOk, generate_gemini_reply s2 sched apiKey net rid rts saveOk = s2) ∧
    (mapFind s2.conversations sched.convId = none →
      ∀ saveOk, generate_gemini_reply s2 sched apiKey net rid rts saveOk = s2) := by
  refine ⟨?_, ?_, ?_, ?_⟩
  · intro hc hw ht hg
    simp [add_message, hc, hw, ht, hg]
  · intro hgen hc2
    refine ⟨?_, ?_, ?_⟩
    · simp [generate_gemini_reply, hgen, hc2]
    · simp [generate_gemini_reply, hgen, hc2, mapFind_mapInsert]
    · intro k hk
      have hne : ¬ (sched.convId = k) := fun hh => hk hh.symm
      simp [generate_gemini_reply, hgen, hc2, mapFind_mapInsert, hne]
  · intro e he saveOk
    simp [generate_gemini_reply, he]
  · intro hnone saveOk
    cases hg2 : (generate_response apiKey sched.prompt sched.ctx net).result with
    | success t => simp [generate_gemini_reply, hg2, hnone]
    | failure e => simp [generate_gemini_reply, hg2]

/-- C6 witness: the scheduled snapshot at a concrete post, a fired reply that
appends on success, a transport failure that changes nothing, and a vanished
conversation that changes nothing. -/
theorem C6_delayed_reply_witness :
    (add_message stateW "conv-default" (some payloadW) "m-1" "t-1" true).scheduled =
      some ⟨"conv-default", "hi", lastN 5 (convDefaultW.messages ++
        [{ id := "m-1", who := "mine", text := "hi", ts := "t-1", status := "sent" }])⟩ ∧
    generate_gemini_reply stateW schedW (some "k") netOkW "r-1" "t-2" true =
      { stateW with conversations := (mapInsert stateW.conversations "conv-default"
          { convDefaultW with messages := convDefaultW.messages ++
            [{ id := "r-1", who := "their", text := "resposta", ts := "t-2",
               status := "delivered" }] }) } ∧
    generate_gemini_reply stateW schedW (some "k") netErrW "r-1" "t-2" true = stateW ∧
    generate_gemini_reply stateW schedGoneW (some "k") netOkW "r-1" "t-2" true = stateW := by
  have h1 := (C6_delayed_reply stateW stateW "conv-default" payloadW "m-1" "t-1" "hi"
    "r-1" "t-2" "resposta" convDefaultW convDefaultW schedW (some "k") netOkW).1
    (by decide) rfl rfl rfl
  have h2 := ((C6_delayed_reply stateW stateW "conv-default" payloadW "m-1" "t-1" "hi"
    "r-1" "t-2" "resposta" convDefaultW convDefaultW schedW (some "k") netOkW).2.1
    rfl (by decide)).1
  have h3 := (C6_delayed_reply stateW stateW "conv-default" payloadW "m-1" "t-1" "hi"
    "r-1" "t-2" "resposta" convDefaultW convDefaultW schedW (some "k") netErrW).2.2.1
    ("Erro de conexão: " ++ "timeout") rfl true
  have h4 := (C6_delayed_reply stateW stateW "conv-default" payloadW "m-1" "t-1" "hi"
    "r-1" "t-2" "resposta" convDefaultW convDefaultW schedGoneW (some "k") netOkW).2.2.2
    (by decide) true
  exact ⟨h1, h2, h3, h4⟩

/-- C8: when geminiEnabled is false in the loaded state, add_message schedules
no timer whatever the payload (in particular for who "mine"), and the
pending-timer queue of the system is exactly what it was before the post, so
no auto-reply step for this post can ever fire. -/
theorem C8_no_reply_when_disabled (st : SysState) (convId : String)
    (payload : Option MsgPayload) (newId ts : String) (saveOk : Bool)
    (hg : st.data.geminiEnabled = false) :
    (add_message st.data convId payload newId ts saveOk).scheduled = none ∧
    (applyOp st (.addMsg convId payload newId ts saveOk)).pending = st.pending := by
  have h1 : (add_message st.data convId payload newId ts saveOk).scheduled = none := by
    cases hf : mapFind st.data.conversations convId with
    | none => simp [add_message, hf]
    | some conv =>
      rcases payload with _ | ⟨_ | who, htext, hstatus⟩
      · simp [add_message, hf]
      · simp [add_message, hf]
      · rcases htext with _ | text
        · simp [add_message, hf]
        · cases saveOk
          · simp [add_message, hf]
          · simp [add_message, hf, hg]
  refine ⟨h1, ?_⟩
  simp [applyOp, h1]

/-- C8 witness: a "mine" post on the concrete gemini-disabled state. -/
theorem C8_no_reply_when_disabled_witness :
    (add_message stateOffW "conv-default" (some payloadW) "m-1" "t-1" true).scheduled = none ∧
    (applyOp ⟨stateOffW, []⟩ (.addMsg "conv-default" (some payloadW) "m-1" "t-1" true)).pending =
      ([] : List ScheduledReply) :=
  C8_no_reply_when_disabled ⟨stateOffW, []⟩ "conv-default" (some payloadW) "m-1" "t-1" true rfl

/-- The conversations map after create_conversation is the input map or an
insertion into it. -/
theorem create_conversation_conversations (s : AppState) (payload : Option CreatePayload)
    (uuid : String) (saveOk : Bool) :
    (create_conversation s payload uuid saveOk).2.2.conversations = s.conversations ∨
    ∃ c, (create_conversation s payload uuid saveOk).2.2.conversations =
      mapInsert s.conversations ("conv-" ++ uuid) c := by
  rcases payload with _ | ⟨_ | name⟩
  · left; rfl
  · left; rfl
  · by_cases he : name = ""
    · left; simp [create_conversation, he]
    · cases saveOk
      · left; simp [create_conversation, he]
      · right
        exact ⟨{ id := "conv-" ++ uuid, name := name, messages := [] },
          by simp [create_conversation, he]⟩

/-- The conversations map after add_message is the input map or an insertion
into it. -/
theorem add_message_conversations (s : AppState) (convId : String)
    (payload : Option MsgPayload) (newId ts : String) (saveOk : Bool) :
    (add_message s convId payload newId ts saveOk).newData.conversations = s.conversations ∨
    ∃ c, (add_message s convId payload newId ts saveOk).newData.conversations =
      mapInsert s.conversations convId c := by
  cases hf : mapFind s.conversations convId with
  | none => left; simp [add_message, hf]
  | some conv =>
    rcases payload with _ | ⟨_ | who, htext, hstatus⟩
    · left; simp [add_message, hf]
    · left; simp [add_message, hf]
    · rcases htext with _ | text
      · left; simp [add_message, hf]
      · cases saveOk
        · left; simp [add_message, hf]
        · right
          exact ⟨{ conv with messages := conv.messages ++
            [{ id := newId, who := who, text := text, ts := ts,
               status := hstatus.getD "sent" }] }, by simp [add_message, hf]⟩

/-- Deleting "conv-default" never changes the state: the request is answered
404 or 400 before any mutation. -/
theorem delete_conversation_default (s : AppState) (saveOk : Bool) :
    (delete_conversation s "conv-default" saveOk).2 = s := by
  by_cases h : mapMem s.conversations "conv-default" = false <;>
    simp [delete_conversation, h]

/-- The conversations map after delete_conversation is the input map, or the
erasure of a key other than "conv-default". -/
theorem delete_conversation_conversations (s : AppState) (convId : String) (saveOk : Bool) :
    (delete_conversation s convId saveOk).2.conversations = s.conversations ∨
    (convId ≠ "conv-default" ∧
      (delete_conversation s convId saveOk).2.conversations = mapErase s.conversations convId) := by
  by_cases h1 : mapMem s.conversations convId = false
  · left; simp [delete_conversation, h1]
  · by_cases h2 : convId = "conv-default"
    · left
      subst h2
      simp [delete_conversation, h1]
    · cases saveOk
      · left; simp [delete_conversation, h1, h2]
      · right
        refine ⟨h2, ?_⟩
        by_cases h3 : s.currentConvId = convId <;> simp [delete_conversation, h1, h2, h3]

/-- The conversations map after clear_messages is the input map or an insertion
into it. -/
theorem clear_messages_conversations (s : AppState) (convId : String) (saveOk : Bool) :
    (clear_messages s convId saveOk).2.conversations = s.conversations ∨
    ∃ c, (clear_messages s convId saveOk).2.conversations =
      mapInsert s.conversations convId c := by
  cases hf : mapFind s.conversations convId with
  | none => left; simp [clear_messages, hf]
  | some conv =>
    cases saveOk
    · left; simp [clear_messages, hf]
    · right; exact ⟨{ conv with messages := [] }, by simp [clear_messages, hf]⟩

/-- The conversations map after a fired reply is the input map or an insertion
into it. -/
theorem generate_gemini_reply_conversations (s : AppState) (sched : ScheduledReply)
    (apiKey : Option String) (net : String → NetResult) (newId ts : String) (saveOk : Bool) :
    (generate_gemini_reply s sched apiKey net newId ts saveOk).conversations = s.conversations ∨
    ∃ c, (generate_gemini_reply s sched apiKey net newId ts saveOk).conversations =
      mapInsert s.conversations sched.convId c := by
  cases hg : (generate_response apiKey sched.prompt sched.ctx net).result with
  | failure e => left; simp [generate_gemini_reply, hg]
  | success t =>
    cases hf : mapFind s.conversations sched.convId with
    | none => left; simp [generate_gemini_reply, hg, hf]
    | some conv =>
      cases saveOk
      · left; simp [generate_gemini_reply, hg, hf]
      · right
        exact ⟨{ conv with messages := conv.messages ++
          [{ id := newId, who := "their", text := t, ts := ts,
             status := "delivered" }] }, by simp [generate_gemini_reply, hg, hf]⟩

/-- No operation of the service removes the default conversation from the
persisted mapping. -/
theorem applyOp_preserves_default (st : SysState) (op : ServerOp)
    (h : mapMem st.data.conversations "conv-default" = true) :
    mapMem (applyOp st op).data.conversations "conv-default" = true := by
  cases op with
  | create payload uuid saveOk =>
    show mapMem (create_conversation st.data payload uuid saveOk).2.2.conversations
      "conv-default" = true
    rcases create_conversation_conversations st.data payload uuid saveOk with heq | ⟨c, heq⟩
    · rw [heq]; exact h
    · rw [heq]; exact mapMem_mapInsert _ _ _ _ h
  | addMsg convId payload newId ts saveOk =>
    show mapMem (add_message st.data convId payload newId ts saveOk).newData.conversations
      "conv-default" = true
    rcases add_message_conversations st.data convId payload newId ts saveOk with heq | ⟨c, heq⟩
    · rw [heq]; exact h
    · rw [heq]; exact mapMem_mapInsert _ _ _ _ h
  | delete convId saveOk =>
    show mapMem (delete_conversation st.data convId saveOk).2.conversations
      "conv-default" = true
    rcases delete_conversation_conversations st.data convId saveOk with heq | ⟨hne, heq⟩
    · rw [heq]; exact h
    · rw [heq]; exact mapMem_mapErase_ne _ _ _ hne h
  | clear convId saveOk =>
    show mapMem (clear_messages st.data convId saveOk).2.conversations "conv-default" = true
    rcases clear_messages_conversations st.data convId saveOk with heq | ⟨c, heq⟩
    · rw [heq]; exact h
    · rw [heq]; exact mapMem_mapInsert _ _ _ _ h
  | toggleBot saveOk =>
    show mapMem (if saveOk then toggle_bot st.data else st.data).conversations
      "conv-default" = true
    cases saveOk <;> simpa [toggle_bot] using h
  | toggleGemini saveOk =>
    show mapMem (if saveOk then toggle_gemini st.data else st.data).conversations
      "conv-default" = true
    cases saveOk <;> simpa [toggle_gemini] using h
  | fire idx apiKey net newId ts saveOk =>
    cases hp : st.pending[idx]? with
    | none => simpa [applyOp, hp] using h
    | some sched =>
      simp only [applyOp, hp]
      rcases generate_gemini_reply_conversations st.data sched apiKey net newId ts saveOk with
        heq | ⟨c, heq⟩
      · rw [heq]; exact h
      · rw [heq]; exact mapMem_mapInsert _ _ _ _ h

/-- Running any operation sequence preserves the presence of "conv-default". -/
theorem reach_preserves_default (ops : List ServerOp) (st : SysState)
    (h : mapMem st.data.conversations "conv-default" = true) :
    mapMem (reach st ops).data.conversations "conv-default" = true := by
  induction ops generalizing st with
  | nil => exact h
  | cons op rest ih => exact ih (applyOp st op) (applyOp_preserves_default st op h)

/-- C1: after initialization (init_default_data on any loaded state), every
state reachable by any sequence of service operations still holds the
conversation "conv-default" in its conversations mapping: initialization
inserts it when missing and no operation, the delete endpoint included, ever
removes it. -/
theorem C1_default_conversation_invariant (loaded : AppState) (uuid ts : String)
    (ops : List ServerOp) :
    mapMem (reach (initSys loaded uuid ts) ops).data.conversations "conv-default" = true := by
  apply reach_preserves_default
  show mapMem (init_default_data loaded uuid ts).conversations "conv-default" = true
  unfold init_default_data
  by_cases hm : mapMem loaded.conversations "conv-default" = true
  · simp [hm]
  · have hb : mapMem loaded.conversations "conv-default" = false := by
      cases hmm : mapMem loaded.conversations "conv-default"
      · rfl
      · exact absurd hmm hm
    have hb2 : (mapFind loaded.conversations "conv-default").isSome = false := hb
    simp [hb2, mapMem, mapFind_mapInsert]
